import Mathlib

/-!
Road classification: `include/extractor/guidance/classification_data.hpp`.

A shallow embedding of `osrm::extractor::guidance::RoadClassification`, its
derivation from the `highway` tag of a way, and the fork predicate
`canBeSeenAsFork`, followed by the properties proved about them.

Conventions of the embedding:

* the bit-field `unsigned priority : 5` is a `Nat`; every store into it is
  reduced modulo `2 ^ 5`, the way a store into an unsigned bit-field is;
* `int` is an `Int` reduced into the 32-bit two's complement range after each
  arithmetic step;
* the mutating member `set` takes the previous value of the object and returns
  the new one.
-/

namespace osrm
namespace extractor
namespace guidance

/-! ## The tag dictionary handed in by the caller -/

/-- Modelled from the spec: the `osmium::Way` argument of `set`, whose class is
declared outside this header. The spec describes it as a tag dictionary, a
read-only mapping from string keys to string values; it is kept here as the
list of `(key, value)` pairs of one road segment. -/
structure Way where
  tags : List (String × String)
  deriving Repr

/-- Modelled from the spec: the accessor `osmium::Way::get_value_by_key`,
declared outside this header. Section 4.1 step 2 of the spec: read the value
associated with the key; if absent, treat as the empty string. -/
def Way.get_value_by_key (way : Way) (key : String) : String :=
  match way.tags.lookup key with
  | some value => value
  | none => ""

/-! ## `std::unordered_map<std::string, unsigned>` as used for `class_hash` -/

/-- The key to value bindings of a `std::unordered_map<std::string, unsigned>`,
each key bound at most once. -/
abbrev UnorderedMap := List (String × Nat)

/-- The statement `hash[key] = value;`: rebinds `key` when it is already bound,
adds the binding otherwise. -/
def UnorderedMap.assign : UnorderedMap → String → Nat → UnorderedMap
  | [], key, value => [(key, value)]
  | (k, v) :: rest, key, value =>
    if k == key then (k, value) :: rest
    else (k, v) :: UnorderedMap.assign rest key value

/-- The lookup `hash.find(key)`: `none` stands for `hash.end()`, `some v` for an
iterator whose `->second` is `v`. -/
def UnorderedMap.find (hash : UnorderedMap) (key : String) : Option Nat :=
  hash.lookup key

/-- The function-local static `class_hash` of `RoadClassification::set`
(lines 67-88), built by the eighteen assignments in source order. -/
def class_hash : UnorderedMap :=
  let hash : UnorderedMap := []
  let hash := hash.assign "motorway" 0
  let hash := hash.assign "motorway_link" 10
  let hash := hash.assign "trunk" 2
  let hash := hash.assign "trunk_link" 10
  let hash := hash.assign "primary" 4
  let hash := hash.assign "primary_link" 10
  let hash := hash.assign "secondary" 6
  let hash := hash.assign "secondary_link" 10
  let hash := hash.assign "tertiary" 8
  let hash := hash.assign "tertiary_link" 10
  let hash := hash.assign "unclassified" 10
  let hash := hash.assign "residential" 11
  let hash := hash.assign "service" 12
  let hash := hash.assign "living_street" 10
  let hash := hash.assign "track" 14
  let hash := hash.assign "road" 14
  let hash := hash.assign "path" 14
  let hash := hash.assign "driveway" 14
  hash

/-! ## Machine arithmetic -/

/-- A store into the bit-field `unsigned priority : 5`: the value modulo
`2 ^ 5`. -/
def storePriority (value : Nat) : Nat := value % 2 ^ 5

/-- Reduction of an integer into the range of a 32-bit `int`. -/
def wrapInt32 (x : Int) : Int := (x + 2 ^ 31) % 2 ^ 32 - 2 ^ 31

/-- The conversion `static_cast<int>(u)` of an `unsigned` value. -/
def static_cast_int (u : Nat) : Int := wrapInt32 (u : Int)

/-- Subtraction of two `int` values. -/
def int_sub (x y : Int) : Int := wrapInt32 (x - y)

/-- The function `std::abs` on `int`. -/
def std_abs (x : Int) : Int := wrapInt32 (if x < 0 then -x else x)

/-! ## `struct RoadClassification` -/

/-- The four bit-fields of `RoadClassification` (lines 18-30). -/
structure RoadClassification where
  motorway_class : Bool
  link_class : Bool
  may_be_ignored : Bool
  priority : Nat
  deriving DecidableEq, Repr

namespace RoadClassification

/-- Default construction (lines 33-36). -/
def default : RoadClassification :=
  { motorway_class := false, link_class := false, may_be_ignored := false,
    priority := storePriority 0 }

/-- The four-argument constructor (lines 38-42). -/
def mk4 (motorway_class link_class may_be_ignored : Bool) (priority : Nat) :
    RoadClassification :=
  { motorway_class := motorway_class, link_class := link_class,
    may_be_ignored := may_be_ignored, priority := storePriority priority }

/-- Member `isMotorwayClass` (line 44). -/
def isMotorwayClass (self : RoadClassification) : Bool :=
  self.motorway_class && !self.link_class

/-- Member `isRampClass` (line 46). -/
def isRampClass (self : RoadClassification) : Bool :=
  self.motorway_class && self.link_class

/-- Member `isLinkClass` (line 48). -/
def isLinkClass (self : RoadClassification) : Bool := self.link_class

/-- Member `isLowPriorityRoadClass` (line 50). -/
def isLowPriorityRoadClass (self : RoadClassification) : Bool := self.may_be_ignored

/-- Member `operator==` (lines 52-56). -/
def operator_eq (self other : RoadClassification) : Bool :=
  self.motorway_class == other.motorway_class && self.link_class == other.link_class &&
    self.may_be_ignored == other.may_be_ignored && self.priority == other.priority

/-- Member `toString` (lines 58-63); `std::to_string` of an unsigned value is
its decimal rendering. -/
def toString (self : RoadClassification) : String :=
  "" ++ (if self.motorway_class then "motorway" else "normal") ++
    (if self.link_class then "_link" else "") ++
    (if self.may_be_ignored then " ignorable" else " important") ++
    Nat.repr self.priority

/-- The body of `set` after line 90, as a function of the string `type`
(lines 91-118): three membership tests, one per flag, then the table lookup
with its fallback. -/
def setType (self : RoadClassification) (type : String) : RoadClassification :=
  let self := { self with motorway_class :=
    if type == "motorway" || type == "trunk" || type == "motorway_link" ||
        type == "trunk_link" then true
    else false }
  let self := { self with link_class :=
    if type == "motorway_link" || type == "trunk_link" || type == "primary_link" ||
        type == "secondary_link" || type == "tertiary_link" then true
    else false }
  let self := { self with may_be_ignored :=
    if type == "service" || type == "track" || type == "road" || type == "path" ||
        type == "driveway" then true
    else false }
  if (class_hash.find type).isSome then
    { self with priority := storePriority ((class_hash.find type).getD 0) }
  else
    { self with priority := storePriority 14 }

/-- Member `set` (lines 65-119): reads the `highway` value of the way into
`type` (line 90) and derives the four fields from it. -/
def set (self : RoadClassification) (way : Way) : RoadClassification :=
  let type := way.get_value_by_key "highway"
  self.setType type

end RoadClassification

/-- The fork predicate (lines 122-125). -/
def canBeSeenAsFork (first second : RoadClassification) : Bool :=
  decide (std_abs (int_sub (static_cast_int first.priority)
    (static_cast_int second.priority)) ≤ 1)

/-- The wrapper `struct RoadClassificationData` (lines 128-131). -/
structure RoadClassificationData where
  road_classification : RoadClassification
  deriving DecidableEq, Repr

namespace RoadClassificationData

/-- Default construction (line 134). -/
def default : RoadClassificationData :=
  { road_classification := RoadClassification.default }

/-- Construction from a way (line 135): the member is default-initialised and
then `set` from the way. -/
def ofWay (way : Way) : RoadClassificationData :=
  { road_classification := RoadClassification.default.set way }

/-- The free `operator==` on the wrapper (lines 138-141). -/
def operator_eq (lhs rhs : RoadClassificationData) : Bool :=
  lhs.road_classification.operator_eq rhs.road_classification

end RoadClassificationData

/-! ## The table as the specification writes it -/

/-- The priority table of section 4.1, step 1, of the specification, entry by
entry in the order written there. -/
def specPriorityTable : List (String × Nat) :=
  [("motorway", 0), ("motorway_link", 10), ("trunk", 2), ("trunk_link", 10),
   ("primary", 4), ("primary_link", 10), ("secondary", 6), ("secondary_link", 10),
   ("tertiary", 8), ("tertiary_link", 10), ("unclassified", 10), ("residential", 11),
   ("service", 12), ("living_street", 10), ("track", 14), ("road", 14), ("path", 14),
   ("driveway", 14)]

/-! ## Reading a debug string back -/

/-- Auxiliary to the proof that `toString` is injective, not part of the
header: reads the four fields back from a debug string. The string starts with
the letter m (code 109) exactly for motorway, holds an underscore (code 95)
exactly when `_link` was written and a letter g (code 103) exactly when
` ignorable` was written, and its decimal digits are those of the priority. -/
def decodeDebugString (s : String) : RoadClassification :=
  { motorway_class := s.data.head? == some (Char.ofNat 109),
    link_class := s.data.contains (Char.ofNat 95),
    may_be_ignored := s.data.contains (Char.ofNat 103),
    priority := (s.data.filter Char.isDigit).foldl (fun n c => 10 * n + (c.toNat - 48)) 0 }

/-! ## Unfolding lemmas shared by the proofs below -/

theorem class_hash_eq_table : class_hash = specPriorityTable := by decide

theorem get_value_by_key_of_lookup (way : Way) (key value : String)
    (h : way.tags.lookup key = some value) : way.get_value_by_key key = value := by
  simp [Way.get_value_by_key, h]

theorem get_value_by_key_of_absent (way : Way) (key : String)
    (h : way.tags.lookup key = none) : way.get_value_by_key key = "" := by
  simp [Way.get_value_by_key, h]

theorem set_of_lookup (self : RoadClassification) (way : Way) (t : String)
    (h : way.tags.lookup "highway" = some t) : self.set way = self.setType t := by
  simp [RoadClassification.set, get_value_by_key_of_lookup way "highway" t h]

theorem setType_motorway_class (self : RoadClassification) (type : String) :
    (self.setType type).motorway_class = true ↔
      type = "motorway" ∨ type = "trunk" ∨ type = "motorway_link" ∨ type = "trunk_link" := by
  by_cases h : (class_hash.find type).isSome = true <;>
    simp [RoadClassification.setType, h, or_assoc]

theorem setType_link_class (self : RoadClassification) (type : String) :
    (self.setType type).link_class = true ↔
      type = "motorway_link" ∨ type = "trunk_link" ∨ type = "primary_link" ∨
        type = "secondary_link" ∨ type = "tertiary_link" := by
  by_cases h : (class_hash.find type).isSome = true <;>
    simp [RoadClassification.setType, h, or_assoc]

theorem setType_may_be_ignored (self : RoadClassification) (type : String) :
    (self.setType type).may_be_ignored = true ↔
      type = "service" ∨ type = "track" ∨ type = "road" ∨ type = "path" ∨
        type = "driveway" := by
  by_cases h : (class_hash.find type).isSome = true <;>
    simp [RoadClassification.setType, h, or_assoc]

theorem setType_priority (self : RoadClassification) (type : String) :
    (self.setType type).priority =
      storePriority ((specPriorityTable.lookup type).getD 14) := by
  unfold RoadClassification.setType
  rw [class_hash_eq_table]
  unfold UnorderedMap.find
  cases hl : List.lookup type specPriorityTable <;> simp

theorem setType_eq (self : RoadClassification) (type : String) :
    self.setType type =
      { motorway_class := decide (type = "motorway" ∨ type = "trunk" ∨
          type = "motorway_link" ∨ type = "trunk_link"),
        link_class := decide (type = "motorway_link" ∨ type = "trunk_link" ∨
          type = "primary_link" ∨ type = "secondary_link" ∨ type = "tertiary_link"),
        may_be_ignored := decide (type = "service" ∨ type = "track" ∨ type = "road" ∨
          type = "path" ∨ type = "driveway"),
        priority := storePriority ((specPriorityTable.lookup type).getD 14) } := by
  have h1 := setType_motorway_class self type
  have h2 := setType_link_class self type
  have h3 := setType_may_be_ignored self type
  have h4 := setType_priority self type
  cases hr : self.setType type with
  | mk m l i p =>
    rw [hr] at h1 h2 h3 h4
    simp only at h1 h2 h3 h4
    simp only [RoadClassification.mk.injEq]
    refine ⟨?_, ?_, ?_, h4⟩
    · rw [Bool.eq_iff_iff, decide_eq_true_iff]; exact h1
    · rw [Bool.eq_iff_iff, decide_eq_true_iff]; exact h2
    · rw [Bool.eq_iff_iff, decide_eq_true_iff]; exact h3

theorem table_lookup_of_mem (t : String) (p : Nat) (h : (t, p) ∈ specPriorityTable) :
    specPriorityTable.lookup t = some p := by
  simp only [specPriorityTable, List.mem_cons, Prod.mk.injEq, List.mem_singleton,
    List.not_mem_nil, or_false] at h
  rcases h with h | h | h | h | h | h | h | h | h | h | h | h | h | h | h | h | h | h <;>
    (obtain ⟨rfl, rfl⟩ := h; decide)

theorem table_lookup_of_not_key (t : String) (h : t ∉ specPriorityTable.map Prod.fst) :
    specPriorityTable.lookup t = none := by
  rw [List.lookup_eq_none_iff]
  intro a ha
  have hne : t ≠ a.1 := by
    intro hk
    apply h
    rw [hk]
    exact List.mem_map_of_mem Prod.fst ha
  simpa using hne

/-! ## Derivation of the three flags and of the priority -/

/-- C1: for a way whose highway value is `t`, `set` makes `motorway_class` true
exactly when `t` is motorway, trunk, motorway_link or trunk_link, `link_class`
true exactly when `t` is one of the five link types, and `may_be_ignored` true
exactly when `t` is service, track, road, path or driveway; each flag is
characterised by the membership of `t` in its own set alone. -/
theorem set_flags_iff_membership (self : RoadClassification) (way : Way) (t : String)
    (h : way.tags.lookup "highway" = some t) :
    ((self.set way).motorway_class = true ↔
        t ∈ ["motorway", "trunk", "motorway_link", "trunk_link"]) ∧
      ((self.set way).link_class = true ↔
        t ∈ ["motorway_link", "trunk_link", "primary_link", "secondary_link",
          "tertiary_link"]) ∧
      ((self.set way).may_be_ignored = true ↔
        t ∈ ["service", "track", "road", "path", "driveway"]) := by
  rw [set_of_lookup self way t h]
  refine ⟨?_, ?_, ?_⟩
  · rw [setType_motorway_class]; simp
  · rw [setType_link_class]; simp
  · rw [setType_may_be_ignored]; simp

/-- Witness for C1 at the way tagged highway=motorway_link, set on the default
value: motorway-like and link, not ignorable. -/
theorem set_flags_iff_membership_witness :
    List.lookup "highway" [("highway", "motorway_link")] = some "motorway_link" ∧
      ((RoadClassification.default.set ⟨[("highway", "motorway_link")]⟩).motorway_class = true ↔
        "motorway_link" ∈ ["motorway", "trunk", "motorway_link", "trunk_link"]) ∧
      ((RoadClassification.default.set ⟨[("highway", "motorway_link")]⟩).link_class = true ↔
        "motorway_link" ∈ ["motorway_link", "trunk_link", "primary_link", "secondary_link",
          "tertiary_link"]) ∧
      ((RoadClassification.default.set ⟨[("highway", "motorway_link")]⟩).may_be_ignored = true ↔
        "motorway_link" ∈ ["service", "track", "road", "path", "driveway"]) :=
  ⟨by decide,
    set_flags_iff_membership RoadClassification.default ⟨[("highway", "motorway_link")]⟩
      "motorway_link" (by decide)⟩

/-- C2: for a way whose highway value is `t`, the priority stored by `set` is
the entry of the specification's table for `t` when `t` is one of its keys and
the fallback 14 otherwise; a way tagged highway=service derives
(false, false, true, 12). -/
theorem set_priority_from_table (self : RoadClassification) (way : Way) (t : String)
    (h : way.tags.lookup "highway" = some t) :
    (∀ p, (t, p) ∈ specPriorityTable → (self.set way).priority = p) ∧
      (t ∉ specPriorityTable.map Prod.fst → (self.set way).priority = 14) ∧
      (t = "service" → self.set way =
        { motorway_class := false, link_class := false, may_be_ignored := true,
          priority := 12 }) := by
  rw [set_of_lookup self way t h]
  refine ⟨?_, ?_, ?_⟩
  · intro p hp
    rw [setType_priority, table_lookup_of_mem t p hp]
    simp only [specPriorityTable, List.mem_cons, Prod.mk.injEq, List.mem_singleton,
      List.not_mem_nil, or_false] at hp
    rcases hp with hp | hp | hp | hp | hp | hp | hp | hp | hp | hp | hp | hp | hp | hp |
      hp | hp | hp | hp <;> (obtain ⟨_, rfl⟩ := hp; decide)
  · intro hn
    rw [setType_priority, table_lookup_of_not_key t hn]
    decide
  · rintro rfl
    rw [setType_eq]
    decide

/-- Witness for C2: the way tagged highway=service derives priority 12 and
the value (false, false, true, 12); the way tagged highway=footway, which is no
key of the table, derives the fallback 14. -/
theorem set_priority_from_table_witness :
    (List.lookup "highway" [("highway", "service")] = some "service" ∧
        ("service", 12) ∈ specPriorityTable ∧
        (RoadClassification.default.set ⟨[("highway", "service")]⟩).priority = 12 ∧
        RoadClassification.default.set ⟨[("highway", "service")]⟩ =
          { motorway_class := false, link_class := false, may_be_ignored := true,
            priority := 12 }) ∧
      (List.lookup "highway" [("highway", "footway")] = some "footway" ∧
        "footway" ∉ specPriorityTable.map Prod.fst ∧
        (RoadClassification.default.set ⟨[("highway", "footway")]⟩).priority = 14) :=
  ⟨⟨by decide, by decide,
      (set_priority_from_table RoadClassification.default ⟨[("highway", "service")]⟩
        "service" (by decide)).1 12 (by decide),
      (set_priority_from_table RoadClassification.default ⟨[("highway", "service")]⟩
        "service" (by decide)).2.2 rfl⟩,
    ⟨by decide, by decide,
      (set_priority_from_table RoadClassification.default ⟨[("highway", "footway")]⟩
        "footway" (by decide)).2.1 (by decide)⟩⟩

theorem setType_of_not_key (self : RoadClassification) (t : String)
    (hn : t ∉ specPriorityTable.map Prod.fst) :
    self.setType t =
      { motorway_class := false, link_class := false, may_be_ignored := false,
        priority := 14 } := by
  rw [setType_eq, table_lookup_of_not_key t hn]
  simp only [specPriorityTable, List.map_cons, List.map_nil, List.mem_cons,
    List.mem_singleton, List.not_mem_nil, or_false, not_or] at hn
  obtain ⟨h1, h2, h3, h4, h5, h6, h7, h8, h9, h10, h11, h12, h13, h14, h15, h16, h17,
    h18⟩ := hn
  simp only [h1, h2, h3, h4, h6, h8, h10, h13, h15, h16, h17, h18, or_self, decide_False,
    Option.getD_none]
  rfl

theorem set_of_absent (self : RoadClassification) (way : Way)
    (h : way.tags.lookup "highway" = none) :
    self.set way =
      { motorway_class := false, link_class := false, may_be_ignored := false,
        priority := 14 } := by
  unfold RoadClassification.set
  rw [get_value_by_key_of_absent way "highway" h]
  exact setType_of_not_key self "" (by decide)

/-- C3: for a way whose highway value is a string that is not one of the
eighteen keys of the priority table, `set` yields motorway_class = false,
link_class = false, may_be_ignored = false and priority = 14. -/
theorem set_unrecognized (self : RoadClassification) (way : Way) (t : String)
    (h : way.tags.lookup "highway" = some t)
    (hn : t ∉ specPriorityTable.map Prod.fst) :
    self.set way =
      { motorway_class := false, link_class := false, may_be_ignored := false,
        priority := 14 } := by
  rw [set_of_lookup self way t h]
  exact setType_of_not_key self t hn

/-- Witness for C3 at the way whose highway value is the empty string, set on
a value whose four fields all differ from the result. -/
theorem set_unrecognized_witness :
    List.lookup "highway" [("highway", "")] = some "" ∧
      "" ∉ specPriorityTable.map Prod.fst ∧
      specPriorityTable.length = 18 ∧
      RoadClassification.set
        { motorway_class := true, link_class := true, may_be_ignored := true, priority := 3 }
        ⟨[("highway", "")]⟩ =
      { motorway_class := false, link_class := false, may_be_ignored := false,
        priority := 14 } :=
  ⟨by decide, by decide, by decide,
    set_unrecognized _ ⟨[("highway", "")]⟩ "" (by decide) (by decide)⟩

/-- C4: for a way without a highway key, `set` returns a value: the absent tag
is read as the empty string and the result is motorway_class = false,
link_class = false, may_be_ignored = false and priority = 14. -/
theorem set_without_highway (self : RoadClassification) (way : Way)
    (h : way.tags.lookup "highway" = none) :
    way.get_value_by_key "highway" = "" ∧
      self.set way =
        { motorway_class := false, link_class := false, may_be_ignored := false,
          priority := 14 } := by
  exact ⟨get_value_by_key_of_absent way "highway" h, set_of_absent self way h⟩

/-- Witness for C4 at a way that carries a name tag only. -/
theorem set_without_highway_witness :
    List.lookup "highway" [("name", "motorway")] = none ∧
      Way.get_value_by_key ⟨[("name", "motorway")]⟩ "highway" = "" ∧
      RoadClassification.default.set ⟨[("name", "motorway")]⟩ =
        { motorway_class := false, link_class := false, may_be_ignored := false,
          priority := 14 } :=
  ⟨by decide,
    set_without_highway RoadClassification.default ⟨[("name", "motorway")]⟩ (by decide)⟩

theorem isMotorwayClass_setType (self : RoadClassification) (type : String) :
    (self.setType type).isMotorwayClass = true ↔ type = "motorway" ∨ type = "trunk" := by
  rw [setType_eq]
  simp only [RoadClassification.isMotorwayClass, Bool.and_eq_true, Bool.not_eq_true',
    decide_eq_true_iff, decide_eq_false_iff_not]
  constructor
  · rintro ⟨h | h | h | h, hl⟩
    · exact Or.inl h
    · exact Or.inr h
    · exact absurd (Or.inl h) hl
    · exact absurd (Or.inr (Or.inl h)) hl
  · rintro (rfl | rfl) <;> decide

theorem isRampClass_setType (self : RoadClassification) (type : String) :
    (self.setType type).isRampClass = true ↔
      type = "motorway_link" ∨ type = "trunk_link" := by
  rw [setType_eq]
  simp only [RoadClassification.isRampClass, Bool.and_eq_true, decide_eq_true_iff]
  constructor
  · rintro ⟨h | h | h | h, hl⟩
    · subst h; revert hl; decide
    · subst h; revert hl; decide
    · exact Or.inl h
    · exact Or.inr h
  · rintro (rfl | rfl) <;> decide

/-- C5: for every way, `isMotorwayClass` of the derived value holds exactly
when the highway value is motorway or trunk and `isRampClass` exactly when it is
motorway_link or trunk_link, so the two never hold together; highway=motorway
derives (true, false, false, 0), a motorway class that is no ramp, and
highway=motorway_link derives (true, true, false, 10), a ramp that is no
motorway class. -/
theorem set_motorway_and_ramp_class (self : RoadClassification) (way : Way) :
    ((self.set way).isMotorwayClass = true ↔
        way.tags.lookup "highway" = some "motorway" ∨
          way.tags.lookup "highway" = some "trunk") ∧
      ((self.set way).isRampClass = true ↔
        way.tags.lookup "highway" = some "motorway_link" ∨
          way.tags.lookup "highway" = some "trunk_link") ∧
      ¬ ((self.set way).isMotorwayClass = true ∧ (self.set way).isRampClass = true) ∧
      (way.tags.lookup "highway" = some "motorway" →
        self.set way =
            { motorway_class := true, link_class := false, may_be_ignored := false,
              priority := 0 } ∧
          (self.set way).isMotorwayClass = true ∧ (self.set way).isRampClass = false) ∧
      (way.tags.lookup "highway" = some "motorway_link" →
        self.set way =
            { motorway_class := true, link_class := true, may_be_ignored := false,
              priority := 10 } ∧
          (self.set way).isRampClass = true ∧ (self.set way).isMotorwayClass = false) := by
  have hm : (self.set way).isMotorwayClass = true ↔
      way.tags.lookup "highway" = some "motorway" ∨
        way.tags.lookup "highway" = some "trunk" := by
    cases hl : way.tags.lookup "highway" with
    | none =>
      rw [set_of_absent self way hl]
      simp [RoadClassification.isMotorwayClass]
    | some t =>
      rw [set_of_lookup self way t hl, isMotorwayClass_setType]
      simp
  have hr : (self.set way).isRampClass = true ↔
      way.tags.lookup "highway" = some "motorway_link" ∨
        way.tags.lookup "highway" = some "trunk_link" := by
    cases hl : way.tags.lookup "highway" with
    | none =>
      rw [set_of_absent self way hl]
      simp [RoadClassification.isRampClass]
    | some t =>
      rw [set_of_lookup self way t hl, isRampClass_setType]
      simp
  refine ⟨hm, hr, ?_, ?_, ?_⟩
  · rintro ⟨h1, h2⟩
    rw [hm] at h1
    rw [hr] at h2
    rcases h1 with h1 | h1 <;> rcases h2 with h2 | h2 <;>
      (rw [h1] at h2; revert h2; decide)
  · intro hl
    have he : self.set way =
        { motorway_class := true, link_class := false, may_be_ignored := false,
          priority := 0 } := by
      rw [set_of_lookup self way "motorway" hl, setType_eq]
      decide
    refine ⟨he, ?_, ?_⟩ <;> rw [he] <;> decide
  · intro hl
    have he : self.set way =
        { motorway_class := true, link_class := true, may_be_ignored := false,
          priority := 10 } := by
      rw [set_of_lookup self way "motorway_link" hl, setType_eq]
      decide
    refine ⟨he, ?_, ?_⟩ <;> rw [he] <;> decide

/-- Witness for C5 at the two stated ways, highway=motorway and
highway=motorway_link. -/
theorem set_motorway_and_ramp_class_witness :
    (List.lookup "highway" [("highway", "motorway")] = some "motorway" ∧
        RoadClassification.default.set ⟨[("highway", "motorway")]⟩ =
          { motorway_class := true, link_class := false, may_be_ignored := false,
            priority := 0 } ∧
        (RoadClassification.default.set ⟨[("highway", "motorway")]⟩).isMotorwayClass = true ∧
        (RoadClassification.default.set ⟨[("highway", "motorway")]⟩).isRampClass = false) ∧
      (List.lookup "highway" [("highway", "motorway_link")] = some "motorway_link" ∧
        RoadClassification.default.set ⟨[("highway", "motorway_link")]⟩ =
          { motorway_class := true, link_class := true, may_be_ignored := false,
            priority := 10 } ∧
        (RoadClassification.default.set ⟨[("highway", "motorway_link")]⟩).isRampClass = true ∧
        (RoadClassification.default.set
          ⟨[("highway", "motorway_link")]⟩).isMotorwayClass = false) :=
  ⟨⟨by decide,
      (set_motorway_and_ramp_class RoadClassification.default
        ⟨[("highway", "motorway")]⟩).2.2.2.1 (by decide)⟩,
    ⟨by decide,
      (set_motorway_and_ramp_class RoadClassification.default
        ⟨[("highway", "motorway_link")]⟩).2.2.2.2 (by decide)⟩⟩

/-! ## The fork predicate -/

theorem canBeSeenAsFork_iff (a b : RoadClassification)
    (ha : a.priority < 32) (hb : b.priority < 32) :
    canBeSeenAsFork a b = true ↔ |(a.priority : Int) - (b.priority : Int)| ≤ 1 := by
  simp only [canBeSeenAsFork, decide_eq_true_iff, std_abs, int_sub, static_cast_int,
    wrapInt32, abs_le]
  split_ifs <;> omega

/-- C6: for classification values whose priorities lie in [0, 31],
`canBeSeenAsFork` is true exactly when the absolute difference of the two
priorities, taken in the integers, is at most 1; the signed subtraction yields
the exact difference, negative when the first priority is the smaller one, and
the result is the same for any two values with these priorities, whatever their
three flags. -/
theorem canBeSeenAsFork_spec (a b : RoadClassification)
    (ha : a.priority < 32) (hb : b.priority < 32) :
    (canBeSeenAsFork a b = true ↔ |(a.priority : Int) - (b.priority : Int)| ≤ 1) ∧
      int_sub (static_cast_int a.priority) (static_cast_int b.priority) =
        (a.priority : Int) - (b.priority : Int) ∧
      (a.priority < b.priority →
        int_sub (static_cast_int a.priority) (static_cast_int b.priority) < 0) ∧
      (∀ a2 b2 : RoadClassification, a2.priority = a.priority → b2.priority = b.priority →
        canBeSeenAsFork a2 b2 = canBeSeenAsFork a b) := by
  refine ⟨canBeSeenAsFork_iff a b ha hb, ?_, ?_, ?_⟩
  · simp only [int_sub, static_cast_int, wrapInt32]
    omega
  · intro hlt
    simp only [int_sub, static_cast_int, wrapInt32]
    omega
  · intro a2 b2 h1 h2
    simp only [canBeSeenAsFork, h1, h2]

/-- Witness for C6 at priorities 10 and 11 with all flags differing, the first
priority being the smaller one. -/
theorem canBeSeenAsFork_spec_witness :
    (10 : Nat) < 32 ∧ (11 : Nat) < 32 ∧
      (canBeSeenAsFork ⟨true, true, false, 10⟩ ⟨false, false, true, 11⟩ = true ↔
        |((10 : Nat) : Int) - ((11 : Nat) : Int)| ≤ 1) ∧
      int_sub (static_cast_int 10) (static_cast_int 11) = ((10 : Nat) : Int) - ((11 : Nat) : Int) ∧
      ((10 : Nat) < 11 → int_sub (static_cast_int 10) (static_cast_int 11) < 0) ∧
      (∀ a2 b2 : RoadClassification, a2.priority = 10 → b2.priority = 11 →
        canBeSeenAsFork a2 b2 =
          canBeSeenAsFork ⟨true, true, false, 10⟩ ⟨false, false, true, 11⟩) :=
  ⟨by decide, by decide,
    canBeSeenAsFork_spec ⟨true, true, false, 10⟩ ⟨false, false, true, 11⟩
      (by decide) (by decide)⟩

/-- C7: `canBeSeenAsFork` is symmetric in its two arguments. -/
theorem canBeSeenAsFork_symm (a b : RoadClassification) :
    canBeSeenAsFork a b = canBeSeenAsFork b a := by
  rw [Bool.eq_iff_iff]
  simp only [canBeSeenAsFork, decide_eq_true_iff, std_abs, int_sub, static_cast_int,
    wrapInt32]
  split_ifs <;> omega

theorem canBeSeenAsFork_setType (self1 self2 : RoadClassification) (t1 t2 : String) :
    canBeSeenAsFork (self1.setType t1) (self2.setType t2) =
      canBeSeenAsFork
        { motorway_class := false, link_class := false, may_be_ignored := false,
          priority := storePriority ((specPriorityTable.lookup t1).getD 14) }
        { motorway_class := false, link_class := false, may_be_ignored := false,
          priority := storePriority ((specPriorityTable.lookup t2).getD 14) } := by
  simp only [canBeSeenAsFork, setType_priority]

/-- C8, as the claim states it, fails: on the values derived from
highway=primary and highway=trunk, whose priorities are 4 and 2,
`canBeSeenAsFork` does not return true. -/
theorem canBeSeenAsFork_primary_trunk_not_true :
    (RoadClassification.default.set ⟨[("highway", "primary")]⟩).priority = 4 ∧
      (RoadClassification.default.set ⟨[("highway", "trunk")]⟩).priority = 2 ∧
      ¬ (canBeSeenAsFork (RoadClassification.default.set ⟨[("highway", "primary")]⟩)
          (RoadClassification.default.set ⟨[("highway", "trunk")]⟩) = true) := by
  decide

/-- C8, amended: for every way tagged highway=primary and every way tagged
highway=trunk the derived priorities are 4 and 2, and `canBeSeenAsFork` on the
two derived values returns false, in either argument order. -/
theorem canBeSeenAsFork_primary_trunk_false (self1 self2 : RoadClassification)
    (way1 way2 : Way) (h1 : way1.tags.lookup "highway" = some "primary")
    (h2 : way2.tags.lookup "highway" = some "trunk") :
    (self1.set way1).priority = 4 ∧ (self2.set way2).priority = 2 ∧
      canBeSeenAsFork (self1.set way1) (self2.set way2) = false ∧
      canBeSeenAsFork (self2.set way2) (self1.set way1) = false := by
  rw [set_of_lookup self1 way1 "primary" h1, set_of_lookup self2 way2 "trunk" h2]
  refine ⟨?_, ?_, ?_, ?_⟩
  · rw [setType_priority]; decide
  · rw [setType_priority]; decide
  · rw [canBeSeenAsFork_setType]; decide
  · rw [canBeSeenAsFork_setType]; decide

/-- Witness for the amended C8 at two ways that carry further tags. -/
theorem canBeSeenAsFork_primary_trunk_false_witness :
    List.lookup "highway" [("name", "A 1"), ("highway", "primary")] = some "primary" ∧
      List.lookup "highway" [("highway", "trunk"), ("oneway", "yes")] = some "trunk" ∧
      (RoadClassification.default.set
        ⟨[("name", "A 1"), ("highway", "primary")]⟩).priority = 4 ∧
      (RoadClassification.default.set
        ⟨[("highway", "trunk"), ("oneway", "yes")]⟩).priority = 2 ∧
      canBeSeenAsFork
        (RoadClassification.default.set ⟨[("name", "A 1"), ("highway", "primary")]⟩)
        (RoadClassification.default.set ⟨[("highway", "trunk"), ("oneway", "yes")]⟩) =
          false ∧
      canBeSeenAsFork
        (RoadClassification.default.set ⟨[("highway", "trunk"), ("oneway", "yes")]⟩)
        (RoadClassification.default.set ⟨[("name", "A 1"), ("highway", "primary")]⟩) =
          false :=
  ⟨by decide, by decide,
    canBeSeenAsFork_primary_trunk_false RoadClassification.default
      RoadClassification.default ⟨[("name", "A 1"), ("highway", "primary")]⟩
      ⟨[("highway", "trunk"), ("oneway", "yes")]⟩ (by decide) (by decide)⟩

/-- C9: for every base class X among motorway, trunk, primary, secondary and
tertiary, `canBeSeenAsFork` on the value derived from highway=X and the value
derived from highway=X_link is false; for trunk the two priorities are 2 and
10. -/
theorem canBeSeenAsFork_base_link_false (X : String)
    (hX : X ∈ ["motorway", "trunk", "primary", "secondary", "tertiary"])
    (self1 self2 : RoadClassification) (way1 way2 : Way)
    (h1 : way1.tags.lookup "highway" = some X)
    (h2 : way2.tags.lookup "highway" = some (X ++ "_link")) :
    canBeSeenAsFork (self1.set way1) (self2.set way2) = false ∧
      (X = "trunk" → (self1.set way1).priority = 2 ∧ (self2.set way2).priority = 10) := by
  rw [set_of_lookup self1 way1 X h1, set_of_lookup self2 way2 (X ++ "_link") h2,
    canBeSeenAsFork_setType, setType_priority, setType_priority]
  simp only [List.mem_cons, List.mem_singleton, List.not_mem_nil, or_false] at hX
  rcases hX with rfl | rfl | rfl | rfl | rfl <;> decide

/-- Witness for C9 at the stated case, trunk against trunk_link. -/
theorem canBeSeenAsFork_base_link_false_witness :
    "trunk" ∈ ["motorway", "trunk", "primary", "secondary", "tertiary"] ∧
      List.lookup "highway" [("highway", "trunk")] = some "trunk" ∧
      List.lookup "highway" [("highway", "trunk_link")] = some ("trunk" ++ "_link") ∧
      canBeSeenAsFork (RoadClassification.default.set ⟨[("highway", "trunk")]⟩)
        (RoadClassification.default.set ⟨[("highway", "trunk_link")]⟩) = false ∧
      ("trunk" = "trunk" →
        (RoadClassification.default.set ⟨[("highway", "trunk")]⟩).priority = 2 ∧
          (RoadClassification.default.set ⟨[("highway", "trunk_link")]⟩).priority = 10) :=
  ⟨by decide, by decide, by decide,
    canBeSeenAsFork_base_link_false "trunk" (by decide) RoadClassification.default
      RoadClassification.default ⟨[("highway", "trunk")]⟩ ⟨[("highway", "trunk_link")]⟩
      (by decide) (by decide)⟩

/-! ## Equality -/

theorem operator_eq_iff (a b : RoadClassification) :
    a.operator_eq b = true ↔
      a.motorway_class = b.motorway_class ∧ a.link_class = b.link_class ∧
        a.may_be_ignored = b.may_be_ignored ∧ a.priority = b.priority := by
  simp only [RoadClassification.operator_eq, Bool.and_eq_true, beq_iff_eq, and_assoc]

/-- C10: `operator==` is structural: it is true exactly when the four fields
are pairwise equal, that is when the two values are the same, and false as soon
as one field differs; it is reflexive, symmetric and transitive. -/
theorem operator_eq_structural (a b c : RoadClassification) :
    (a.operator_eq b = true ↔
        a.motorway_class = b.motorway_class ∧ a.link_class = b.link_class ∧
          a.may_be_ignored = b.may_be_ignored ∧ a.priority = b.priority) ∧
      (a.operator_eq b = true ↔ a = b) ∧
      (a.motorway_class ≠ b.motorway_class ∨ a.link_class ≠ b.link_class ∨
          a.may_be_ignored ≠ b.may_be_ignored ∨ a.priority ≠ b.priority →
        a.operator_eq b = false) ∧
      a.operator_eq a = true ∧
      a.operator_eq b = b.operator_eq a ∧
      (a.operator_eq b = true → b.operator_eq c = true → a.operator_eq c = true) := by
  refine ⟨operator_eq_iff a b, ?_, ?_, ?_, ?_, ?_⟩
  · rw [operator_eq_iff]
    cases a; cases b
    simp only [RoadClassification.mk.injEq]
  · intro h
    rw [← Bool.not_eq_true, operator_eq_iff]
    rintro ⟨e1, e2, e3, e4⟩
    rcases h with h | h | h | h
    · exact h e1
    · exact h e2
    · exact h e3
    · exact h e4
  · rw [operator_eq_iff]
    exact ⟨rfl, rfl, rfl, rfl⟩
  · rw [Bool.eq_iff_iff, operator_eq_iff, operator_eq_iff]
    constructor <;> rintro ⟨e1, e2, e3, e4⟩ <;> exact ⟨e1.symm, e2.symm, e3.symm, e4.symm⟩
  · rw [operator_eq_iff, operator_eq_iff, operator_eq_iff]
    rintro ⟨e1, e2, e3, e4⟩ ⟨f1, f2, f3, f4⟩
    exact ⟨e1.trans f1, e2.trans f2, e3.trans f3, e4.trans f4⟩

/-- Witness for C10: on three copies of (true, true, false, 10) the
hypotheses of transitivity hold, and (true, true, false, 10) against
(true, true, false, 11), which differ in priority alone, compares false. -/
theorem operator_eq_structural_witness :
    (RoadClassification.operator_eq ⟨true, true, false, 10⟩ ⟨true, true, false, 10⟩ = true ∧
        RoadClassification.operator_eq ⟨true, true, false, 10⟩ ⟨true, true, false, 10⟩ =
          true) ∧
      ((10 : Nat) ≠ 11 ∧
        RoadClassification.operator_eq ⟨true, true, false, 10⟩ ⟨true, true, false, 11⟩ =
          false) :=
  ⟨⟨by decide,
      (operator_eq_structural ⟨true, true, false, 10⟩ ⟨true, true, false, 10⟩
        ⟨true, true, false, 10⟩).2.2.2.2.2 (by decide) (by decide)⟩,
    ⟨by decide,
      (operator_eq_structural ⟨true, true, false, 10⟩ ⟨true, true, false, 11⟩
        ⟨true, true, false, 10⟩).2.2.1 (Or.inr (Or.inr (Or.inr (by decide))))⟩⟩

/-! ## Lemmas on the range of the derivation -/

theorem mem_of_lookup (l : List (String × Nat)) (t : String) (p : Nat)
    (h : l.lookup t = some p) : (t, p) ∈ l := by
  induction l with
  | nil => simp at h
  | cons kv rest ih =>
    obtain ⟨k, v⟩ := kv
    rw [List.lookup_cons] at h
    by_cases hk : t == k
    · simp only [hk, Option.some.injEq] at h
      have hk' : t = k := by simpa using hk
      rw [hk', h]
      exact List.mem_cons_self _ _
    · simp only [hk] at h
      exact List.mem_cons_of_mem _ (ih h)

theorem setType_self_irrelevant (self1 self2 : RoadClassification) (type : String) :
    self1.setType type = self2.setType type := by
  rw [setType_eq self1, setType_eq self2]

theorem setType_mem_range (self : RoadClassification) (type : String) :
    self.setType type ∈
      ({ motorway_class := false, link_class := false, may_be_ignored := false,
         priority := 14 } : RoadClassification) ::
        specPriorityTable.map (fun kv => RoadClassification.default.setType kv.1) := by
  by_cases hk : type ∈ specPriorityTable.map Prod.fst
  · apply List.mem_cons_of_mem
    rw [List.mem_map] at hk ⊢
    obtain ⟨kv, hkv, rfl⟩ := hk
    exact ⟨kv, hkv, setType_self_irrelevant _ _ _⟩
  · rw [setType_of_not_key self type hk]
    exact List.mem_cons_self _ _

theorem set_mem_range (self : RoadClassification) (way : Way) :
    self.set way ∈
      ({ motorway_class := false, link_class := false, may_be_ignored := false,
         priority := 14 } : RoadClassification) ::
        specPriorityTable.map (fun kv => RoadClassification.default.setType kv.1) :=
  setType_mem_range self (way.get_value_by_key "highway")

/-! ## The debug string -/

theorem repr_two_digits : ∀ p : Fin 32,
    Nat.repr p.val =
      if p.val < 10 then String.mk [Char.ofNat (48 + p.val)]
      else String.mk [Char.ofNat (48 + p.val / 10), Char.ofNat (48 + p.val % 10)] := by
  decide

/-- C11: `toString` is the concatenation of "motorway" or "normal", then
"_link" or nothing, then " ignorable" or " important", then the decimal
rendering of the priority with no separator (one digit below 10, two digits
from 10 to 31); (true, false, false, 0) renders "motorway important0" and
(true, true, false, 10) renders "motorway_link important10". -/
theorem toString_spec (r : RoadClassification) :
    r.toString =
        (if r.motorway_class = true then "motorway" else "normal") ++
          (if r.link_class = true then "_link" else "") ++
          (if r.may_be_ignored = true then " ignorable" else " important") ++
          Nat.repr r.priority ∧
      (r.priority < 32 →
        Nat.repr r.priority =
          if r.priority < 10 then String.mk [Char.ofNat (48 + r.priority)]
          else String.mk [Char.ofNat (48 + r.priority / 10),
            Char.ofNat (48 + r.priority % 10)]) ∧
      RoadClassification.toString ⟨true, false, false, 0⟩ = "motorway important0" ∧
      RoadClassification.toString ⟨true, true, false, 10⟩ = "motorway_link important10" := by
  refine ⟨?_, ?_, by decide, by decide⟩
  · unfold RoadClassification.toString
    cases r.motorway_class <;> rfl
  · intro h
    exact repr_two_digits ⟨r.priority, h⟩

/-- Witness for C11 at (false, true, true, 14), whose priority has two
digits. -/
theorem toString_spec_witness :
    (14 : Nat) < 32 ∧
      RoadClassification.toString ⟨false, true, true, 14⟩ = "normal_link ignorable14" ∧
      Nat.repr 14 = String.mk [Char.ofNat (48 + 14 / 10), Char.ofNat (48 + 14 % 10)] :=
  ⟨by decide,
    (toString_spec ⟨false, true, true, 14⟩).1.trans (by decide),
    ((toString_spec ⟨false, true, true, 14⟩).2.1 (by decide)).trans (by decide)⟩

/-! ## What the derivation reads and what it can return -/

/-- C12: `set` reads the highway value alone and overwrites all four fields:
for two ways that agree on the highway value, and whatever the fields of the
objects `set` is called on were before, the resulting values are equal; so are
the wrappers constructed from the two ways. -/
theorem set_reads_highway_only (self1 self2 : RoadClassification) (way1 way2 : Way)
    (h : way1.tags.lookup "highway" = way2.tags.lookup "highway") :
    self1.set way1 = self2.set way2 ∧
      (self1.set way1).operator_eq (self2.set way2) = true ∧
      RoadClassificationData.ofWay way1 = RoadClassificationData.ofWay way2 := by
  have hv : way1.get_value_by_key "highway" = way2.get_value_by_key "highway" := by
    unfold Way.get_value_by_key
    rw [h]
  have he : ∀ s1 s2 : RoadClassification, s1.set way1 = s2.set way2 := by
    intro s1 s2
    unfold RoadClassification.set
    rw [hv]
    exact setType_self_irrelevant s1 s2 _
  refine ⟨he self1 self2, ?_, ?_⟩
  · rw [he self1 self2, operator_eq_iff]
    exact ⟨rfl, rfl, rfl, rfl⟩
  · unfold RoadClassificationData.ofWay
    rw [he RoadClassification.default RoadClassification.default]

/-- Witness for C12 at two ways that share highway=primary and differ in their
other tags, set on two objects that differ in all four fields. -/
theorem set_reads_highway_only_witness :
    List.lookup "highway" [("highway", "primary"), ("name", "A 1")] =
        List.lookup "highway" [("oneway", "yes"), ("highway", "primary")] ∧
      RoadClassification.set ⟨true, true, true, 31⟩
          ⟨[("highway", "primary"), ("name", "A 1")]⟩ =
        RoadClassification.set ⟨false, false, false, 0⟩
          ⟨[("oneway", "yes"), ("highway", "primary")]⟩ ∧
      RoadClassification.set ⟨true, true, true, 31⟩
          ⟨[("highway", "primary"), ("name", "A 1")]⟩ = ⟨false, false, false, 4⟩ :=
  ⟨by decide,
    (set_reads_highway_only ⟨true, true, true, 31⟩ ⟨false, false, false, 0⟩
      ⟨[("highway", "primary"), ("name", "A 1")]⟩
      ⟨[("oneway", "yes"), ("highway", "primary")]⟩ (by decide)).1,
    by decide⟩

/-- C13: for every way the priority stored by `set` is a constant of the table
or the fallback 14, hence at most 14 and inside the five-bit range [0, 31]; the
default-constructed value has priority 0. -/
theorem set_priority_range (self : RoadClassification) (way : Way) :
    ((self.set way).priority ∈ specPriorityTable.map Prod.snd ∨
        (self.set way).priority = 14) ∧
      (self.set way).priority ≤ 14 ∧
      (self.set way).priority < 2 ^ 5 ∧
      RoadClassification.default.priority = 0 := by
  have hall : ∀ v ∈ ((⟨false, false, false, 14⟩ : RoadClassification) ::
      specPriorityTable.map (fun kv => RoadClassification.default.setType kv.1)),
      (v.priority ∈ specPriorityTable.map Prod.snd ∨ v.priority = 14) ∧
        v.priority ≤ 14 ∧ v.priority < 2 ^ 5 := by
    decide
  obtain ⟨h1, h2, h3⟩ := hall _ (set_mem_range self way)
  exact ⟨h1, h2, h3, by decide⟩

/-- C14: default construction yields motorway_class = false, link_class =
false, may_be_ignored = false and priority = 0, and a default-constructed
`RoadClassificationData` holds exactly that value. -/
theorem default_construction :
    RoadClassification.default =
        { motorway_class := false, link_class := false, may_be_ignored := false,
          priority := 0 } ∧
      RoadClassificationData.default.road_classification =
        { motorway_class := false, link_class := false, may_be_ignored := false,
          priority := 0 } ∧
      RoadClassificationData.default.road_classification = RoadClassification.default := by
  decide

/-- C15: the default value has the priority 0 of the value derived from
highway=motorway, yet for every way the derived value and the default value
compare unequal under `operator==`, in either order. -/
theorem set_ne_default (self : RoadClassification) (way : Way) :
    (RoadClassification.default.priority = 0 ∧
        (self.set ⟨[("highway", "motorway")]⟩).priority = 0) ∧
      (self.set way).operator_eq RoadClassification.default = false ∧
      RoadClassification.default.operator_eq (self.set way) = false ∧
      self.set way ≠ RoadClassification.default := by
  have hall : ∀ v ∈ ((⟨false, false, false, 14⟩ : RoadClassification) ::
      specPriorityTable.map (fun kv => RoadClassification.default.setType kv.1)),
      v.operator_eq RoadClassification.default = false ∧
        RoadClassification.default.operator_eq v = false ∧
        v ≠ RoadClassification.default := by
    decide
  refine ⟨⟨by decide, ?_⟩, hall _ (set_mem_range self way)⟩
  rw [set_of_lookup self ⟨[("highway", "motorway")]⟩ "motorway" (by decide),
    setType_priority]
  decide

/-! ## The four-argument constructor -/

/-- C16, as the claim states it, fails: constructing with priority 32 succeeds
and stores 32 mod 32 = 0, not the clamped 31, so the value equals the one
constructed with priority 0. -/
theorem mk4_truncates_at_32 :
    (RoadClassification.mk4 false false false 32).priority = 32 % 32 ∧
      (RoadClassification.mk4 false false false 32).priority ≠ 31 ∧
      RoadClassification.mk4 false false false 32 =
        RoadClassification.mk4 false false false 0 ∧
      (RoadClassification.mk4 false false false 32).operator_eq
        (RoadClassification.mk4 false false false 0) = true := by
  decide

/-- C16, amended: the four-argument constructor makes no range check; for
every priority argument p it keeps the three flags and stores p mod 32, which
is p itself when p is at most 31 and differs from p when p exceeds 31, the
value then being the one constructed with p mod 32. -/
theorem mk4_stores_mod_32 (m l i : Bool) (p : Nat) :
    (RoadClassification.mk4 m l i p).motorway_class = m ∧
      (RoadClassification.mk4 m l i p).link_class = l ∧
      (RoadClassification.mk4 m l i p).may_be_ignored = i ∧
      (RoadClassification.mk4 m l i p).priority = p % 32 ∧
      (p ≤ 31 → (RoadClassification.mk4 m l i p).priority = p) ∧
      (31 < p → (RoadClassification.mk4 m l i p).priority ≠ p ∧
        RoadClassification.mk4 m l i p = RoadClassification.mk4 m l i (p % 32)) := by
  refine ⟨rfl, rfl, rfl, rfl, ?_, ?_⟩
  · intro h
    simp only [RoadClassification.mk4, storePriority]
    omega
  · intro h
    constructor
    · simp only [RoadClassification.mk4, storePriority]
      omega
    · simp only [RoadClassification.mk4, storePriority, RoadClassification.mk.injEq,
        true_and]
      omega

/-- Witness for the amended C16 at the in-range priority 5 and at the
out-of-range priority 45, which is stored as 13. -/
theorem mk4_stores_mod_32_witness :
    ((5 : Nat) ≤ 31 ∧ (RoadClassification.mk4 true false true 5).priority = 5) ∧
      ((31 : Nat) < 45 ∧ (RoadClassification.mk4 true false true 45).priority ≠ 45 ∧
        RoadClassification.mk4 true false true 45 =
          RoadClassification.mk4 true false true (45 % 32) ∧
        (RoadClassification.mk4 true false true 45).priority = 13) :=
  ⟨⟨by decide, (mk4_stores_mod_32 true false true 5).2.2.2.2.1 (by decide)⟩,
    ⟨by decide, ((mk4_stores_mod_32 true false true 45).2.2.2.2.2 (by decide)).1,
      ((mk4_stores_mod_32 true false true 45).2.2.2.2.2 (by decide)).2,
      (mk4_stores_mod_32 true false true 45).2.2.2.1⟩⟩

/-! ## Base classes and their link variants in the table -/

/-- C17, as the claim states it, fails: in `class_hash` primary is 4 and
primary_link is 10, so the two priorities do not differ by exactly one. -/
theorem table_base_link_not_adjacent :
    ¬ (∀ p q : Nat, class_hash.find "primary" = some p →
        class_hash.find ("primary" ++ "_link") = some q → (q = p + 1 ∨ p = q + 1)) := by
  intro h
  have h1 := h 4 10 (by decide) (by decide)
  omega

/-- C17, amended: for every base class X among motorway, trunk, primary,
secondary and tertiary, the table priority of X_link is 10 and exceeds the
table priority of X by at least two, namely by 10, 8, 6, 4 and 2 respectively
(the base priorities being 0, 2, 4, 6 and 8), so two values with these
priorities are outside the fork tolerance, in either order. -/
theorem table_base_link_gap (X : String)
    (hX : X ∈ ["motorway", "trunk", "primary", "secondary", "tertiary"]) :
    ∃ p q g : Nat, class_hash.find X = some p ∧ class_hash.find (X ++ "_link") = some q ∧
      q = 10 ∧ q = p + g ∧ 2 ≤ g ∧
      (X, g) ∈ [("motorway", 10), ("trunk", 8), ("primary", 6), ("secondary", 4),
        ("tertiary", 2)] ∧
      (X, p) ∈ [("motorway", 0), ("trunk", 2), ("primary", 4), ("secondary", 6),
        ("tertiary", 8)] ∧
      ∀ a b : RoadClassification, a.priority = p → b.priority = q →
        canBeSeenAsFork a b = false ∧ canBeSeenAsFork b a = false := by
  have hfork : ∀ p q : Nat, p < 32 → q < 32 → p + 2 ≤ q →
      ∀ a b : RoadClassification, a.priority = p → b.priority = q →
        canBeSeenAsFork a b = false ∧ canBeSeenAsFork b a = false := by
    intro p q hp hq hpq a b ha hb
    have hab : ¬ (canBeSeenAsFork a b = true) := by
      rw [canBeSeenAsFork_iff a b (by omega) (by omega), abs_le]
      omega
    have hba : ¬ (canBeSeenAsFork b a = true) := by
      rw [canBeSeenAsFork_iff b a (by omega) (by omega), abs_le]
      omega
    exact ⟨by simpa using hab, by simpa using hba⟩
  simp only [List.mem_cons, List.mem_singleton, List.not_mem_nil, or_false] at hX
  rcases hX with rfl | rfl | rfl | rfl | rfl
  · exact ⟨0, 10, 10, by decide, by decide, rfl, by decide, by decide, by decide, by decide,
      hfork 0 10 (by decide) (by decide) (by decide)⟩
  · exact ⟨2, 10, 8, by decide, by decide, rfl, by decide, by decide, by decide, by decide,
      hfork 2 10 (by decide) (by decide) (by decide)⟩
  · exact ⟨4, 10, 6, by decide, by decide, rfl, by decide, by decide, by decide, by decide,
      hfork 4 10 (by decide) (by decide) (by decide)⟩
  · exact ⟨6, 10, 4, by decide, by decide, rfl, by decide, by decide, by decide, by decide,
      hfork 6 10 (by decide) (by decide) (by decide)⟩
  · exact ⟨8, 10, 2, by decide, by decide, rfl, by decide, by decide, by decide, by decide,
      hfork 8 10 (by decide) (by decide) (by decide)⟩

/-- Witness for the amended C17 at tertiary, the base class closest to its
link variant: 8 against 10, a gap of 2. -/
theorem table_base_link_gap_witness :
    "tertiary" ∈ ["motorway", "trunk", "primary", "secondary", "tertiary"] ∧
      class_hash.find "tertiary" = some 8 ∧ class_hash.find "tertiary_link" = some 10 ∧
      ∃ p q g : Nat, class_hash.find "tertiary" = some p ∧
        class_hash.find ("tertiary" ++ "_link") = some q ∧ q = 10 ∧ q = p + g ∧ 2 ≤ g ∧
        ("tertiary", g) ∈ [("motorway", 10), ("trunk", 8), ("primary", 6), ("secondary", 4),
          ("tertiary", 2)] ∧
        ("tertiary", p) ∈ [("motorway", 0), ("trunk", 2), ("primary", 4), ("secondary", 6),
          ("tertiary", 8)] ∧
        ∀ a b : RoadClassification, a.priority = p → b.priority = q →
          canBeSeenAsFork a b = false ∧ canBeSeenAsFork b a = false :=
  ⟨by decide, by decide, by decide, table_base_link_gap "tertiary" (by decide)⟩

/-! ## The debug string determines the value -/

set_option maxRecDepth 100000 in
theorem decodeDebugString_toString_fin : ∀ (m l i : Bool) (p : Fin 32),
    decodeDebugString (RoadClassification.toString ⟨m, l, i, p.val⟩) = ⟨m, l, i, p.val⟩ := by
  decide

theorem decodeDebugString_toString (r : RoadClassification) (h : r.priority < 32) :
    decodeDebugString r.toString = r :=
  decodeDebugString_toString_fin r.motorway_class r.link_class r.may_be_ignored
    ⟨r.priority, h⟩

/-- C18: on values whose priority lies in [0, 31], `toString` is injective:
two values with the same debug string have the same four fields and compare
equal under `operator==`. -/
theorem toString_injective (a b : RoadClassification)
    (ha : a.priority < 32) (hb : b.priority < 32) (h : a.toString = b.toString) :
    a = b ∧ a.operator_eq b = true := by
  have hab : a = b := by
    rw [← decodeDebugString_toString a ha, ← decodeDebugString_toString b hb, h]
  refine ⟨hab, ?_⟩
  rw [hab, operator_eq_iff]
  exact ⟨rfl, rfl, rfl, rfl⟩

/-- Witness for C18 at the value derived from highway=trunk_link and the value
built by the four-argument constructor from (true, true, false, 42), both of
which render "motorway_link important10". -/
theorem toString_injective_witness :
    (RoadClassification.default.set ⟨[("highway", "trunk_link")]⟩).priority < 32 ∧
      (RoadClassification.mk4 true true false 42).priority < 32 ∧
      (RoadClassification.default.set ⟨[("highway", "trunk_link")]⟩).toString =
        (RoadClassification.mk4 true true false 42).toString ∧
      RoadClassification.default.set ⟨[("highway", "trunk_link")]⟩ =
        RoadClassification.mk4 true true false 42 :=
  ⟨by decide, by decide, by decide,
    (toString_injective (RoadClassification.default.set ⟨[("highway", "trunk_link")]⟩)
      (RoadClassification.mk4 true true false 42) (by decide) (by decide) (by decide)).1⟩

/-! ## Reflexivity and failure of transitivity of the fork predicate -/

/-- C19: `canBeSeenAsFork` holds between every value and itself, and it is not
transitive on derived values: with a, b, c derived from highway=living_street,
residential and service, of priorities 10, 11 and 12, it holds for a and b and
for b and c, and fails for a and c. -/
theorem canBeSeenAsFork_refl_not_trans (x self1 self2 self3 : RoadClassification)
    (way1 way2 way3 : Way)
    (h1 : way1.tags.lookup "highway" = some "living_street")
    (h2 : way2.tags.lookup "highway" = some "residential")
    (h3 : way3.tags.lookup "highway" = some "service") :
    canBeSeenAsFork x x = true ∧
      ((self1.set way1).priority = 10 ∧ (self2.set way2).priority = 11 ∧
        (self3.set way3).priority = 12) ∧
      canBeSeenAsFork (self1.set way1) (self2.set way2) = true ∧
      canBeSeenAsFork (self2.set way2) (self3.set way3) = true ∧
      canBeSeenAsFork (self1.set way1) (self3.set way3) = false := by
  rw [set_of_lookup self1 way1 _ h1, set_of_lookup self2 way2 _ h2,
    set_of_lookup self3 way3 _ h3]
  refine ⟨?_, ⟨?_, ?_, ?_⟩, ?_, ?_, ?_⟩
  · simp only [canBeSeenAsFork, decide_eq_true_iff, std_abs, int_sub, static_cast_int,
      wrapInt32]
    split_ifs <;> omega
  · rw [setType_priority]; decide
  · rw [setType_priority]; decide
  · rw [setType_priority]; decide
  · rw [canBeSeenAsFork_setType]; decide
  · rw [canBeSeenAsFork_setType]; decide
  · rw [canBeSeenAsFork_setType]; decide

/-- Witness for C19 at the three stated ways, with the value (true, false, true,
31) for the reflexive part. -/
theorem canBeSeenAsFork_refl_not_trans_witness :
    (List.lookup "highway" [("highway", "living_street")] = some "living_street" ∧
        List.lookup "highway" [("highway", "residential")] = some "residential" ∧
        List.lookup "highway" [("highway", "service")] = some "service") ∧
      canBeSeenAsFork ⟨true, false, true, 31⟩ ⟨true, false, true, 31⟩ = true ∧
      canBeSeenAsFork (RoadClassification.default.set ⟨[("highway", "living_street")]⟩)
        (RoadClassification.default.set ⟨[("highway", "residential")]⟩) = true ∧
      canBeSeenAsFork (RoadClassification.default.set ⟨[("highway", "residential")]⟩)
        (RoadClassification.default.set ⟨[("highway", "service")]⟩) = true ∧
      canBeSeenAsFork (RoadClassification.default.set ⟨[("highway", "living_street")]⟩)
        (RoadClassification.default.set ⟨[("highway", "service")]⟩) = false :=
  ⟨⟨by decide, by decide, by decide⟩,
    (canBeSeenAsFork_refl_not_trans ⟨true, false, true, 31⟩ RoadClassification.default
      RoadClassification.default RoadClassification.default
      ⟨[("highway", "living_street")]⟩ ⟨[("highway", "residential")]⟩
      ⟨[("highway", "service")]⟩ (by decide) (by decide) (by decide)).1,
    (canBeSeenAsFork_refl_not_trans ⟨true, false, true, 31⟩ RoadClassification.default
      RoadClassification.default RoadClassification.default
      ⟨[("highway", "living_street")]⟩ ⟨[("highway", "residential")]⟩
      ⟨[("highway", "service")]⟩ (by decide) (by decide) (by decide)).2.2⟩

/-! ## Link classes -/

theorem set_link_class_imp (self : RoadClassification) (way : Way)
    (h : (self.set way).link_class = true) :
    (self.set way).priority = 10 ∧ (self.set way).may_be_ignored = false := by
  have hall : ∀ v ∈ ((⟨false, false, false, 14⟩ : RoadClassification) ::
      specPriorityTable.map (fun kv => RoadClassification.default.setType kv.1)),
      v.link_class = true → v.priority = 10 ∧ v.may_be_ignored = false := by
    decide
  exact hall _ (set_mem_range self way) h

/-- C20: for every way, if the derived value has link_class = true then its
priority is exactly 10 and may_be_ignored is false; hence any two derived
values with link_class = true can be seen as a fork of each other. -/
theorem set_link_class_priority (self : RoadClassification) (way : Way)
    (h : (self.set way).link_class = true) :
    (self.set way).priority = 10 ∧ (self.set way).may_be_ignored = false ∧
      ∀ (self2 : RoadClassification) (way2 : Way), (self2.set way2).link_class = true →
        canBeSeenAsFork (self.set way) (self2.set way2) = true ∧
          canBeSeenAsFork (self2.set way2) (self.set way) = true := by
  obtain ⟨hp, hi⟩ := set_link_class_imp self way h
  refine ⟨hp, hi, ?_⟩
  intro self2 way2 h2
  obtain ⟨hp2, _⟩ := set_link_class_imp self2 way2 h2
  simp only [canBeSeenAsFork, hp, hp2]
  decide

/-- Witness for C20 at the ways tagged highway=motorway_link and
highway=tertiary_link. -/
theorem set_link_class_priority_witness :
    (RoadClassification.default.set ⟨[("highway", "motorway_link")]⟩).link_class = true ∧
      (RoadClassification.default.set ⟨[("highway", "tertiary_link")]⟩).link_class = true ∧
      (RoadClassification.default.set ⟨[("highway", "motorway_link")]⟩).priority = 10 ∧
      (RoadClassification.default.set ⟨[("highway", "motorway_link")]⟩).may_be_ignored =
        false ∧
      canBeSeenAsFork (RoadClassification.default.set ⟨[("highway", "motorway_link")]⟩)
        (RoadClassification.default.set ⟨[("highway", "tertiary_link")]⟩) = true :=
  ⟨by decide, by decide,
    (set_link_class_priority RoadClassification.default ⟨[("highway", "motorway_link")]⟩
      (by decide)).1,
    (set_link_class_priority RoadClassification.default ⟨[("highway", "motorway_link")]⟩
      (by decide)).2.1,
    ((set_link_class_priority RoadClassification.default ⟨[("highway", "motorway_link")]⟩
      (by decide)).2.2 RoadClassification.default ⟨[("highway", "tertiary_link")]⟩
      (by decide)).1⟩

end guidance
end extractor
end osrm
